import Mathlib

/-!
Verification of the asset-rent-management-system core: the rent-ledger
computation (per-tenant monthly due status) and the dashboard summary
aggregator, together with the frontend API client's response handler.

Calendar dates are triples (year, month 1-12, day); a calendar month is
identified by its month index `year * 12 + (month - 1)`.  Money amounts are
modelled as exact integers (the repository stores plain JS numbers and the
properties at stake are sums, differences and comparisons, which are the
same over any ordered ring; an integer amount can be read as a count of
cents).
-/

/-- A calendar date: year, month (1-12), day (1-31). -/
structure CalDate where
  year : Nat
  month : Nat
  day : Nat
deriving DecidableEq, Repr

/-- The index of the calendar month containing a date: months elapsed since
year 0.  Two dates fall in the same calendar month exactly when their
indices agree; the day is ignored. -/
def monthIndex (d : CalDate) : Nat := d.year * 12 + (d.month - 1)

/-- Chronological order on dates: earlier month, or same month and
day-of-month no larger. -/
def dateLE (a b : CalDate) : Prop :=
  monthIndex a < monthIndex b ∨ (monthIndex a = monthIndex b ∧ a.day ≤ b.day)

instance (a b : CalDate) : Decidable (dateLE a b) := by
  unfold dateLE
  exact inferInstance

/-- A tenant record (§3 of the data model). -/
structure Tenant where
  id : Nat
  name : String
  monthly_rent : Int
  contact_email : Option String
  move_in_date : CalDate
deriving DecidableEq, Repr

/-- A payment record (§3 of the data model). -/
structure Payment where
  payment_id : Nat
  tenant_id : Nat
  amount : Int
  payment_date : CalDate
  notes : Option String
deriving DecidableEq, Repr

/-- A derived per-month due-status record; `month` is a month index. -/
structure MonthlyDueStatus where
  month : Nat
  expected_rent : Int
  paid_amount : Int
  pending_amount : Int
  is_paid_in_full : Bool
deriving DecidableEq, Repr

/-- The result of a tenant-history request. -/
structure TenantHistory where
  tenant : Tenant
  monthlyDueStatus : List MonthlyDueStatus
  payments : List Payment
deriving DecidableEq, Repr

/-- The derived dashboard summary record. -/
structure DashboardSummary where
  total_tenants : Nat
  total_expected_rent_current_month : Int
  total_collected_current_month : Int
  total_pending_current_month : Int
deriving DecidableEq, Repr

/-- The month indices from `lo` to `hi` inclusive, ascending; empty when
`lo > hi`. -/
def monthRange (lo hi : Nat) : List Nat :=
  (List.range (hi + 1 - lo)).map (fun i => lo + i)

/-- Sum of the amounts of the payments whose payment_date falls in the
calendar month with index `m`. -/
def paidInMonth (payments : List Payment) (m : Nat) : Int :=
  ((payments.filter (fun p => monthIndex p.payment_date == m)).map Payment.amount).sum

/-- Payment display order: by payment_date descending (most recent first). -/
def paymentDesc (p q : Payment) : Prop := dateLE q.payment_date p.payment_date

instance (p q : Payment) : Decidable (paymentDesc p q) := by
  unfold paymentDesc
  exact inferInstance

instance : IsTotal Payment paymentDesc := by
  constructor
  intro p q
  unfold paymentDesc dateLE
  omega

instance : IsTrans Payment paymentDesc := by
  constructor
  intro p q r h1 h2
  unfold paymentDesc dateLE at h1 h2 ⊢
  omega

/-- Payments sorted by payment_date descending. -/
def sortPaymentsDesc (ps : List Payment) : List Payment :=
  List.insertionSort paymentDesc ps

/-- Modelled from the spec: the backend Ledger Engine `computeTenantHistory`
(§4.1) is not among the repository files here (only its frontend callers
are), so this definition follows the spec's algorithm: enumerate the due
months from the month of move_in_date through referenceMonth; for each, the
flat monthly_rent is expected, paid_amount sums the payments dated in that
month, pending_amount = max(expected - paid, 0) and is_paid_in_full iff
paid ≥ expected; payments are returned sorted by date descending. -/
def computeTenantHistory (tenant : Tenant) (payments : List Payment)
    (referenceMonth : Nat) : TenantHistory :=
  let dueMonths := monthRange (monthIndex tenant.move_in_date) referenceMonth
  let statuses := dueMonths.map (fun m =>
    let paid := paidInMonth payments m
    { month := m
      expected_rent := tenant.monthly_rent
      paid_amount := paid
      pending_amount := max (tenant.monthly_rent - paid) 0
      is_paid_in_full := decide (tenant.monthly_rent ≤ paid) })
  { tenant := tenant
    monthlyDueStatus := statuses
    payments := sortPaymentsDesc payments }

/-- Modelled from the spec: the backend Summary Aggregator
`computeDashboardSummary` (§4.2) is not among the repository files here, so
this definition follows the spec's algorithm: count all tenants; sum
monthly_rent over tenants whose move-in month is ≤ referenceMonth; sum the
amounts of payments dated in referenceMonth; pending is
max(expected - collected, 0) at the aggregate level. -/
def computeDashboardSummary (tenants : List Tenant) (payments : List Payment)
    (referenceMonth : Nat) : DashboardSummary :=
  let expected := ((tenants.filter
      (fun t => decide (monthIndex t.move_in_date ≤ referenceMonth))).map
      Tenant.monthly_rent).sum
  let collected := ((payments.filter
      (fun p => monthIndex p.payment_date == referenceMonth)).map
      Payment.amount).sum
  { total_tenants := tenants.length
    total_expected_rent_current_month := expected
    total_collected_current_month := collected
    total_pending_current_month := max (expected - collected) 0 }

/-- Sum of the pending_amount of a history's entries for month `m` (there is
at most one such entry). -/
def pendingForMonth (h : TenantHistory) (m : Nat) : Int :=
  ((h.monthlyDueStatus.filter (fun s => s.month == m)).map
    MonthlyDueStatus.pending_amount).sum

/-- An HTTP response as far as `handleResponse` (frontend api client)
inspects it: the ok flag, the parsed JSON body, and the body's optional
string-valued `detail` field. -/
structure HttpResponse (α : Type) where
  ok : Bool
  body : α
  detail : Option String
deriving DecidableEq, Repr

/-- JS `x || fallback` for an optional string field `x`: an absent (or
null) field and the empty string are falsy, so both select the fallback. -/
def jsStringOr (s : Option String) (fallback : String) : String :=
  match s with
  | some v => if v = "" then fallback else v
  | none => fallback

/-- The frontend api client's `handleResponse`: on a non-ok response throw
an Error with message `errorData.detail || 'Something went wrong'`,
otherwise return the parsed JSON body. -/
def handleResponse {α : Type} (response : HttpResponse α) : Except String α :=
  if response.ok then Except.ok response.body
  else Except.error (jsStringOr response.detail "Something went wrong")

/-! Concrete records used by the witness theorems: the spec's §8 scenario
(rent 1000, move-in 2024-01-15, payments 600 on 2024-01-20 and 1000 on
2024-02-05, reference month 2024-02). -/

/-- The §8 scenario tenant. -/
def exTenant : Tenant :=
  { id := 1, name := "A", monthly_rent := 1000, contact_email := none
    move_in_date := { year := 2024, month := 1, day := 15 } }

/-- The §8 scenario payments. -/
def exPayments : List Payment :=
  [ { payment_id := 1, tenant_id := 1, amount := 600
      payment_date := { year := 2024, month := 1, day := 20 }, notes := none }
  , { payment_id := 2, tenant_id := 1, amount := 1000
      payment_date := { year := 2024, month := 2, day := 5 }, notes := none } ]

/-- The §8 scenario reference month, 2024-02. -/
def exRef : Nat := monthIndex { year := 2024, month := 2, day := 1 }

/-! Helper lemmas. -/

lemma mem_monthRange (lo hi k : Nat) : k ∈ monthRange lo hi ↔ lo ≤ k ∧ k ≤ hi := by
  constructor
  · intro h
    simp only [monthRange, List.mem_map, List.mem_range] at h
    obtain ⟨i, hlt, heq⟩ := h
    omega
  · intro h
    simp only [monthRange, List.mem_map, List.mem_range]
    exact ⟨k - lo, by omega, by omega⟩

lemma pairwise_monthRange (lo hi : Nat) : (monthRange lo hi).Pairwise (· < ·) := by
  unfold monthRange
  exact (List.pairwise_lt_range _).map _ (fun a b h => by omega)

lemma monthRange_eq_nil (lo hi : Nat) (h : hi < lo) : monthRange lo hi = [] := by
  unfold monthRange
  have : hi + 1 - lo = 0 := by omega
  rw [this]
  rfl

lemma dueMonths_eq (t : Tenant) (ps : List Payment) (m : Nat) :
    (computeTenantHistory t ps m).monthlyDueStatus.map MonthlyDueStatus.month =
      monthRange (monthIndex t.move_in_date) m := by
  simp [computeTenantHistory, List.map_map, Function.comp_def]

/-- C1: the due months enumerated by computeTenantHistory are exactly the
calendar months from the month of move_in_date up to and including
referenceMonth, in chronological (strictly ascending) order, and the
sequence is empty — not an error — when move_in_date's month is after
referenceMonth. -/
theorem C1_due_month_enumeration (t : Tenant) (ps : List Payment) (m : Nat) :
    (∀ k, k ∈ (computeTenantHistory t ps m).monthlyDueStatus.map MonthlyDueStatus.month ↔
        monthIndex t.move_in_date ≤ k ∧ k ≤ m) ∧
    ((computeTenantHistory t ps m).monthlyDueStatus.map MonthlyDueStatus.month).Pairwise (· < ·) ∧
    (m < monthIndex t.move_in_date → (computeTenantHistory t ps m).monthlyDueStatus = []) := by
  refine ⟨fun k => ?_, ?_, fun h => ?_⟩
  · rw [dueMonths_eq]
    exact mem_monthRange _ _ _
  · rw [dueMonths_eq]
    exact pairwise_monthRange _ _
  · have := dueMonths_eq t ps m
    rw [monthRange_eq_nil _ _ h] at this
    exact List.map_eq_nil_iff.mp this

lemma mem_statuses (t : Tenant) (ps : List Payment) (m : Nat)
    (s : MonthlyDueStatus)
    (hs : s ∈ (computeTenantHistory t ps m).monthlyDueStatus) :
    ∃ k, k ∈ monthRange (monthIndex t.move_in_date) m ∧
      s = { month := k
            expected_rent := t.monthly_rent
            paid_amount := paidInMonth ps k
            pending_amount := max (t.monthly_rent - paidInMonth ps k) 0
            is_paid_in_full := decide (t.monthly_rent ≤ paidInMonth ps k) } := by
  simp only [computeTenantHistory, List.mem_map] at hs
  obtain ⟨k, hk, hsk⟩ := hs
  exact ⟨k, hk, hsk.symm⟩

lemma mem_result_payments (t : Tenant) (ps : List Payment) (m : Nat)
    (p : Payment) : p ∈ (computeTenantHistory t ps m).payments ↔ p ∈ ps := by
  simp only [computeTenantHistory, sortPaymentsDesc]
  exact (List.perm_insertionSort paymentDesc ps).mem_iff

/-- C2: each due month's paid_amount is the sum of the amounts of the
payments dated in that calendar month; a payment dated in a month that is
not an enumerated due month contributes to no entry's paid_amount (every
entry only sums payments dated in its own month), yet every input payment
still appears in the returned payments list. -/
theorem C2_paid_amount_partition (t : Tenant) (ps : List Payment) (m : Nat) :
    (∀ s ∈ (computeTenantHistory t ps m).monthlyDueStatus,
        s.paid_amount =
          ((ps.filter (fun p => monthIndex p.payment_date == s.month)).map
            Payment.amount).sum) ∧
    (∀ p, p ∈ (computeTenantHistory t ps m).payments ↔ p ∈ ps) := by
  refine ⟨fun s hs => ?_, mem_result_payments t ps m⟩
  obtain ⟨k, _, rfl⟩ := mem_statuses t ps m s hs
  rfl

/-- C3: every entry produced by computeTenantHistory has
expected_rent = the tenant's flat monthly_rent, pending_amount =
max(expected_rent - paid_amount, 0), and is_paid_in_full exactly when
paid_amount ≥ expected_rent. -/
theorem C3_status_fields (t : Tenant) (ps : List Payment) (m : Nat) :
    ∀ s ∈ (computeTenantHistory t ps m).monthlyDueStatus,
      s.expected_rent = t.monthly_rent ∧
      s.pending_amount = max (s.expected_rent - s.paid_amount) 0 ∧
      (s.is_paid_in_full = true ↔ s.paid_amount ≥ s.expected_rent) := by
  intro s hs
  obtain ⟨k, _, rfl⟩ := mem_statuses t ps m s hs
  refine ⟨rfl, rfl, ?_⟩
  exact decide_eq_true_iff

/-- The §8 scenario's first due-month entry (2024-01). -/
def exStatusJan : MonthlyDueStatus :=
  { month := 24288, expected_rent := 1000, paid_amount := 600
    pending_amount := 400, is_paid_in_full := false }

/-- C3 witness: the §8 scenario's January entry is produced, and its fields
satisfy the stated relations. -/
theorem C3_status_fields_witness :
    exStatusJan ∈ (computeTenantHistory exTenant exPayments exRef).monthlyDueStatus ∧
      (exStatusJan.expected_rent = exTenant.monthly_rent ∧
       exStatusJan.pending_amount =
         max (exStatusJan.expected_rent - exStatusJan.paid_amount) 0 ∧
       (exStatusJan.is_paid_in_full = true ↔
         exStatusJan.paid_amount ≥ exStatusJan.expected_rent)) :=
  ⟨by decide, C3_status_fields exTenant exPayments exRef exStatusJan (by decide)⟩

/-- C4: total_tenants counts every tenant record unconditionally, while
total_expected_rent_current_month sums monthly_rent only over tenants whose
move-in month is ≤ referenceMonth; adding a tenant who has not moved in yet
raises the count but leaves the expected rent unchanged. -/
theorem C4_count_rent_asymmetry (ts : List Tenant) (ps : List Payment)
    (m : Nat) (t : Tenant) :
    (computeDashboardSummary ts ps m).total_tenants = ts.length ∧
    (computeDashboardSummary ts ps m).total_expected_rent_current_month =
      ((ts.filter (fun u => decide (monthIndex u.move_in_date ≤ m))).map
        Tenant.monthly_rent).sum ∧
    (computeDashboardSummary (t :: ts) ps m).total_tenants = ts.length + 1 ∧
    (m < monthIndex t.move_in_date →
      (computeDashboardSummary (t :: ts) ps m).total_expected_rent_current_month =
        (computeDashboardSummary ts ps m).total_expected_rent_current_month) := by
  refine ⟨rfl, rfl, rfl, fun h => ?_⟩
  have hf : decide (monthIndex t.move_in_date ≤ m) = false := by
    simp
    omega
  simp [computeDashboardSummary, List.filter_cons, hf]

/-- C6: total_collected_current_month sums exactly the payments dated in
referenceMonth, over all tenants; it does not depend on the tenant list at
all, so in particular no filtering by the paying tenant's move_in_date
happens. -/
theorem C6_collected_unfiltered (ts ts2 : List Tenant) (ps : List Payment)
    (m : Nat) :
    (computeDashboardSummary ts ps m).total_collected_current_month =
      ((ps.filter (fun p => monthIndex p.payment_date == m)).map
        Payment.amount).sum ∧
    (computeDashboardSummary ts ps m).total_collected_current_month =
      (computeDashboardSummary ts2 ps m).total_collected_current_month :=
  ⟨rfl, rfl⟩

/-- C9: on empty tenant and payment collections the summary is all zeros,
not an error. -/
theorem C9_empty_collections (m : Nat) :
    computeDashboardSummary [] [] m =
      { total_tenants := 0
        total_expected_rent_current_month := 0
        total_collected_current_month := 0
        total_pending_current_month := 0 } := by
  simp [computeDashboardSummary]

/-- A second tenant for the aggregate-vs-per-tenant pending divergence. -/
def exTenantB : Tenant :=
  { id := 2, name := "B", monthly_rent := 1500, contact_email := none
    move_in_date := { year := 2024, month := 1, day := 1 } }

/-- A 2000 overpayment by tenant 1 in 2024-01. -/
def exOverPayment : Payment :=
  { payment_id := 3, tenant_id := 1, amount := 2000
    payment_date := { year := 2024, month := 1, day := 10 }, notes := none }

/-- C5: total_pending_current_month is the aggregate
max(expected - collected, 0); it is not the sum of per-tenant pending
amounts: there is an input (one tenant overpaying, another underpaying)
where the aggregate value is strictly smaller than that per-tenant sum. -/
theorem C5_pending_aggregate (ts : List Tenant) (ps : List Payment) (m : Nat) :
    (computeDashboardSummary ts ps m).total_pending_current_month =
      max ((computeDashboardSummary ts ps m).total_expected_rent_current_month -
           (computeDashboardSummary ts ps m).total_collected_current_month) 0 ∧
    ∃ (ts2 : List Tenant) (ps2 : List Payment) (m2 : Nat),
      (computeDashboardSummary ts2 ps2 m2).total_pending_current_month <
        (ts2.map (fun t => pendingForMonth
          (computeTenantHistory t (ps2.filter (fun p => p.tenant_id == t.id)) m2)
          m2)).sum :=
  ⟨rfl, [exTenant, exTenantB], [exOverPayment], 24288, by decide⟩

lemma nodup_monthRange (lo hi : Nat) : (monthRange lo hi).Nodup := by
  unfold monthRange
  exact (List.nodup_range _).map (fun a b h => by omega)

lemma sum_ite_not_mem (x : Nat) (c : Int) (M : List Nat) (hx : x ∉ M) :
    (M.map (fun m => if x = m then c else 0)).sum = 0 := by
  induction M with
  | nil => rfl
  | cons m M ih =>
    simp only [List.mem_cons, not_or] at hx
    simp [hx.1, ih hx.2]

lemma sum_ite_mem (x : Nat) (c : Int) (M : List Nat) (hM : M.Nodup) :
    (M.map (fun m => if x = m then c else 0)).sum =
      if x ∈ M then c else 0 := by
  induction M with
  | nil => simp
  | cons m M ih =>
    rcases List.nodup_cons.mp hM with ⟨hm, hM2⟩
    by_cases hxm : x = m
    · subst hxm
      simp [sum_ite_not_mem x c M hm]
    · simp [hxm, ih hM2, List.mem_cons]

lemma sum_map_add_int (M : List Nat) (f g : Nat → Int) :
    (M.map (fun m => f m + g m)).sum = (M.map f).sum + (M.map g).sum := by
  induction M with
  | nil => rfl
  | cons m M ih =>
    simp only [List.map_cons, List.sum_cons, ih]
    ring

lemma paidInMonth_cons (p : Payment) (rest : List Payment) (m : Nat) :
    paidInMonth (p :: rest) m =
      (if monthIndex p.payment_date = m then p.amount else 0) +
        paidInMonth rest m := by
  by_cases h : monthIndex p.payment_date = m <;>
    simp [paidInMonth, List.filter_cons, h]

lemma sum_paidInMonth_nil (M : List Nat) :
    (M.map (paidInMonth [])).sum = 0 := by
  induction M with
  | nil => rfl
  | cons a L ih =>
    simp only [List.map_cons, List.sum_cons, ih]
    rfl

lemma sum_paid_months (ps : List Payment) (M : List Nat) (hM : M.Nodup) :
    (M.map (paidInMonth ps)).sum =
      ((ps.filter (fun p => M.contains (monthIndex p.payment_date))).map
        Payment.amount).sum := by
  induction ps with
  | nil =>
    rw [sum_paidInMonth_nil]
    rfl
  | cons p rest ih =>
    have hmap : List.map (paidInMonth (p :: rest)) M =
        List.map (fun m =>
          (if monthIndex p.payment_date = m then p.amount else 0) +
            paidInMonth rest m) M :=
      List.map_congr_left (fun m _ => paidInMonth_cons p rest m)
    rw [hmap, sum_map_add_int, sum_ite_mem _ _ _ hM, ih]
    by_cases hx : monthIndex p.payment_date ∈ M
    · simp [List.filter_cons, hx]
    · simp [List.filter_cons, hx]

/-- C7: the sum of paid_amount over all produced entries equals the sum of
the amounts of the payments whose payment_date falls in some enumerated due
month; payments dated outside the enumerated months are excluded from that
sum yet still appear in the returned payments list. -/
theorem C7_paid_sum_property (t : Tenant) (ps : List Payment) (m : Nat) :
    ((computeTenantHistory t ps m).monthlyDueStatus.map
        MonthlyDueStatus.paid_amount).sum =
      ((ps.filter (fun p =>
          ((computeTenantHistory t ps m).monthlyDueStatus.map
            MonthlyDueStatus.month).contains (monthIndex p.payment_date))).map
        Payment.amount).sum ∧
    (∀ p, p ∈ (computeTenantHistory t ps m).payments ↔ p ∈ ps) := by
  constructor
  · rw [dueMonths_eq]
    have h1 : (computeTenantHistory t ps m).monthlyDueStatus.map
        MonthlyDueStatus.paid_amount =
        (monthRange (monthIndex t.move_in_date) m).map (paidInMonth ps) := by
      simp [computeTenantHistory, List.map_map, Function.comp_def]
    rw [h1]
    exact sum_paid_months ps _ (nodup_monthRange _ _)
  · exact mem_result_payments t ps m

/-- C8: the returned payments list is ordered by payment_date descending
(each element's date is ≥ the next one's) and is a permutation of the input
payments, while the monthlyDueStatus months are strictly ascending. -/
theorem C8_payments_sorted_desc (t : Tenant) (ps : List Payment) (m : Nat) :
    List.Sorted paymentDesc (computeTenantHistory t ps m).payments ∧
    List.Perm (computeTenantHistory t ps m).payments ps ∧
    List.Sorted (· < ·)
      ((computeTenantHistory t ps m).monthlyDueStatus.map
        MonthlyDueStatus.month) := by
  refine ⟨?_, ?_, ?_⟩
  · exact List.sorted_insertionSort paymentDesc ps
  · exact List.perm_insertionSort paymentDesc ps
  · rw [dueMonths_eq]
    exact pairwise_monthRange _ _

/-- C10 counterexample: a non-ok response whose body's detail field is
present but is the empty string.  The claim as stated demands the thrown
message equal that detail field (""), but JS `errorData.detail || msg`
treats the empty string as falsy, so the code throws "Something went wrong"
instead. -/
theorem C10_counterexample :
    ({ ok := false, body := 0, detail := some "" } : HttpResponse Nat).detail =
        some "" ∧
      handleResponse
        ({ ok := false, body := 0, detail := some "" } : HttpResponse Nat) =
        Except.error "Something went wrong" ∧
      handleResponse
        ({ ok := false, body := 0, detail := some "" } : HttpResponse Nat) ≠
        Except.error "" := by
  refine ⟨rfl, rfl, ?_⟩
  intro h
  simp [handleResponse, jsStringOr] at h

/-- C10 (amended): handleResponse fails exactly on non-ok responses; the
error message is the body's detail field when that field is present and
non-empty, and "Something went wrong" when it is absent or empty; an ok
response yields the parsed body unchanged. -/
theorem C10_handleResponse_behavior (α : Type) (r : HttpResponse α) :
    (r.ok = true → handleResponse r = Except.ok r.body) ∧
    (r.ok = false → ∀ d, r.detail = some d → d ≠ "" →
      handleResponse r = Except.error d) ∧
    (r.ok = false → (r.detail = none ∨ r.detail = some "") →
      handleResponse r = Except.error "Something went wrong") ∧
    ((∃ e, handleResponse r = Except.error e) ↔ r.ok = false) := by
  obtain ⟨ok, body, detail⟩ := r
  refine ⟨fun hok => ?_, fun hok d hd hne => ?_, fun hok hd => ?_, ?_⟩
  · subst hok
    rfl
  · subst hok
    subst hd
    simp [handleResponse, jsStringOr, hne]
  · subst hok
    rcases hd with hd | hd <;> subst hd <;> rfl
  · cases ok
    · exact ⟨fun _ => rfl, fun _ => ⟨jsStringOr detail "Something went wrong", rfl⟩⟩
    · constructor
      · rintro ⟨e, he⟩
        simp [handleResponse] at he
      · intro h
        cases h
